import Mathlib

/-!
Shallow embedding of the kitesurf-marketplace backend
(`src/main.py`, `src/schemas.py`).

The HTTP layer is modelled as pure functions from a payload and an optional
store handle to a result together with the store state after the call.
`HTTPException` mirrors FastAPI's exception (status code and detail string).
The document store handle `db` is `Option DB`: `none` models the
unconfigured store (`db is None` in `main.py`).

The generic document gateway (`create_document`, `get_documents`) and the
Mongo query evaluation live in `database.py`, which is not part of src/;
those pieces are modelled from the spec and are marked as such in their
doc comments.  Everything else is translated directly from `main.py` and
`schemas.py`.
-/

set_option autoImplicit false

/-- FastAPI `HTTPException`: a status code and a detail string. -/
structure HTTPException where
  status_code : Nat
  detail : String
deriving DecidableEq, Repr

/-- A BSON `ObjectId`, identified with its 24-character hex representation. -/
structure ObjectId where
  hex : String
deriving DecidableEq, Repr

/-- A hexadecimal digit, upper or lower case (what `bson.ObjectId` accepts). -/
def isHexChar (c : Char) : Bool :=
  c.isDigit || ('a' ≤ c && c ≤ 'f') || ('A' ≤ c && c ≤ 'F')

/-- Validity of a string as a `bson.ObjectId`: exactly 24 hex characters. -/
def isValidObjectIdString (s : String) : Bool :=
  s.length == 24 && s.data.all isHexChar

/-- `to_object_id` from `main.py`: parse the string, raising HTTP 400
"Invalid id" when `bson.ObjectId` rejects it. -/
def to_object_id (id_str : String) : Except HTTPException ObjectId :=
  if isValidObjectIdString id_str then Except.ok ⟨id_str⟩
  else Except.error ⟨400, "Invalid id"⟩

/-! ## Schemas (`src/schemas.py`)

JSON numbers are modelled as `Rat` (no claim computes with them); all other
field types are direct. -/

/-- `schemas.User`. -/
structure User where
  handle : String
  name : Option String
  email : String
  bio : Option String
  location : Option String
  favorite_brands : Option (List String)
  verified : Bool
  avatar_url : Option String
deriving DecidableEq, Repr

/-- `schemas.Listing`. -/
structure Listing where
  seller_id : String
  title : String
  description : Option String
  gear_type : String
  brand : Option String
  model : Option String
  year : Option Int
  condition : String
  price : Rat
  currency : String
  size_m2 : Option Rat
  board_length_cm : Option Rat
  board_width_cm : Option Rat
  line_length_m : Option Rat
  location : Option String
  pickup_available : Bool
  shipping_available : Bool
  image_urls : List String
  tags : List String
deriving DecidableEq, Repr

/-- `schemas.Message`. -/
structure Message where
  listing_id : String
  sender_id : String
  receiver_id : String
  body : String
  attachment_urls : List String
deriving DecidableEq, Repr

/-- `schemas.Review`.  `rating` is kept as an unconstrained `Int` so that the
pydantic validation (`ge=1, le=5`) can be stated separately. -/
structure Review where
  reviewer_id : String
  reviewee_id : String
  rating : Int
  comment : Option String
  listing_id : Option String
deriving DecidableEq, Repr

/-- Pydantic field validation for `schemas.Review`: `rating` is an integer in
`[1, 5]` and `comment`, when present, has at most 500 characters.  FastAPI
runs this before the route handler body. -/
def validReview (p : Review) : Bool :=
  decide (1 ≤ p.rating) && decide (p.rating ≤ 5) &&
    (match p.comment with
     | none => true
     | some c => decide (c.length ≤ 500))

/-! ## Document store model -/

/-- A stored document: the generated `_id` plus the entity's fields. -/
structure StoredDoc (α : Type) where
  oid : ObjectId
  doc : α
deriving DecidableEq, Repr

/-- The configured document store: one collection per schema (collection name
is the lowercase class name, per the `schemas.py` docstring), plus a counter
feeding the store's id generator. -/
structure DB where
  user : List (StoredDoc User)
  listing : List (StoredDoc Listing)
  message : List (StoredDoc Message)
  review : List (StoredDoc Review)
  counter : Nat
deriving DecidableEq, Repr

/-- Hex digit character for the id generator. -/
def hexDigitChar (n : Nat) : Char :=
  if n < 10 then Char.ofNat (48 + n) else Char.ofNat (97 + (n - 10))

/-- Modelled from the spec: the store "assigned a generated unique
identifier" to each inserted document (§3 Lifecycle); uniqueness is
delegated to the store (§5).  The generator is modelled as the hex encoding
of a running counter, zero-padded to 24 characters. -/
def genId (c : Nat) : ObjectId :=
  let digits := Nat.toDigits 16 c
  ⟨String.mk (List.replicate (24 - digits.length) '0' ++ digits)⟩

/-- Mongo `find_one({"_id": oid})`: first document in the collection whose
`_id` equals `oid`. -/
def find_one {α : Type} (coll : List (StoredDoc α)) (oid : ObjectId) : Option α :=
  match coll with
  | [] => none
  | s :: t => if s.oid = oid then some s.doc else find_one t oid

/-- Modelled from the spec: `create_document` of the absent `database.py`
(§4.4): "inserts the entity's field set (excluding any client-supplied
identifier) into the named collection; returns the newly generated
identifier as a string.  Always succeeds if the store is reachable."
Returns the id string, the extended collection and the advanced counter. -/
def create_document {α : Type} (coll : List (StoredDoc α)) (counter : Nat)
    (payload : α) : String × List (StoredDoc α) × Nat :=
  ((genId counter).hex, coll ++ [⟨genId counter, payload⟩], counter + 1)

/-- Modelled from the spec: `get_documents` of the absent `database.py` with
no filter (§4.4): "returns all documents in the collection", insertion
order. -/
def get_documents {α : Type} (coll : List (StoredDoc α)) : List (StoredDoc α) :=
  coll

/-- Modelled from the spec: `get_documents` of the absent `database.py` with
a filter (§4.4): "returns all documents in the collection matching an
optional filter predicate", insertion order. -/
def get_documents_filtered {α : Type} (coll : List (StoredDoc α))
    (pred : StoredDoc α → Bool) : List (StoredDoc α) :=
  coll.filter pred

/-! ## Route handlers (`src/main.py`)

Each handler takes the store handle and the (schema-validated) payload and
returns the FastAPI outcome — `Except.ok` with the id string of the
`IdResponse`, or `Except.error` with the raised `HTTPException` — paired
with the store state when the handler returns or raises. -/

/-- The `StoreUnavailable` guard error of `main.py`:
`HTTPException(status_code=500, detail="Database not configured")`. -/
def databaseNotConfigured : HTTPException := ⟨500, "Database not configured"⟩

/-- Modelled from the spec: what happens when `create_document` of the
absent `database.py` is reached with the store handle unset.  The spec's
failure table gives `POST /api/users` no store-unavailable failure (§6), and
§4.4 only promises success "if the store is reachable"; with the handle
absent the insertion attempt fails inside the driver layer and FastAPI
surfaces an unhandled exception as a generic 500, not the explicit
"Database not configured" guard. -/
def driverFailure : HTTPException := ⟨500, "Internal Server Error"⟩

/-- `POST /api/users` (`create_user` in `main.py`): no store guard, the
payload is handed straight to `create_document("user", payload)`. -/
def create_user (db : Option DB) (payload : User) :
    Except HTTPException String × Option DB :=
  match db with
  | none => (Except.error driverFailure, none)
  | some d =>
    let r := create_document d.user d.counter payload
    (Except.ok r.1, some { d with user := r.2.1, counter := r.2.2 })

/-- `GET /api/users` (`list_users` in `main.py`): all user documents with
`_id` serialized to its string form. -/
def list_users (d : DB) : List (String × User) :=
  (get_documents d.user).map (fun s => (s.oid.hex, s.doc))

/-- `POST /api/listings` (`create_listing` in `main.py`): store guard, then
seller existence check (`db["user"].find_one({"_id": to_object_id(...)})`),
then insertion. -/
def create_listing (db : Option DB) (payload : Listing) :
    Except HTTPException String × Option DB :=
  match db with
  | none => (Except.error databaseNotConfigured, none)
  | some d =>
    match to_object_id payload.seller_id with
    | Except.error e => (Except.error e, some d)
    | Except.ok oid =>
      match find_one d.user oid with
      | none => (Except.error ⟨404, "Seller not found"⟩, some d)
      | some _ =>
        let r := create_document d.listing d.counter payload
        (Except.ok r.1, some { d with listing := r.2.1, counter := r.2.2 })

/-! ### Listing search -/

/-- The `filter_dict` built by `list_listings` in `main.py`: a `gear_type`
equality clause and a three-way case-insensitive `$or` clause over
`title`/`brand`/`model`, each present only when the corresponding query
parameter is truthy. -/
structure ListingFilter where
  gear_type : Option String
  q : Option String
deriving DecidableEq, Repr

/-- Python truthiness of an optional string: `None` and `""` are falsy. -/
def truthy (s : Option String) : Bool :=
  match s with
  | none => false
  | some v => !(v == "")

/-- The `filter_dict` construction of `list_listings`: each clause is added
under `if gear_type:` / `if q:`, so an absent or empty parameter adds no
clause. -/
def build_listing_filter (gear_type q : Option String) : ListingFilter :=
  { gear_type := if truthy gear_type then gear_type else none
    q := if truthy q then q else none }

/-- `needle` appears at the start of `hay`. -/
def startsWithCL (needle hay : List Char) : Bool :=
  match needle, hay with
  | [], _ => true
  | _ :: _, [] => false
  | a :: as, b :: bs => a == b && startsWithCL as bs

/-- `needle` appears contiguously somewhere in `hay`. -/
def containsCL (needle hay : List Char) : Bool :=
  match hay with
  | [] => needle.isEmpty
  | _ :: t => startsWithCL needle hay || containsCL needle t

/-- Case-insensitive substring test: the Mongo
`{"$regex": q, "$options": "i"}` clause for a plain (metacharacter-free)
query string, per the spec's "case-insensitive substring match" (§4.4). -/
def ciContains (hay q : String) : Bool :=
  containsCL (q.data.map Char.toLower) (hay.data.map Char.toLower)

/-- The `$regex` clause applied to an optional field: a document whose field
is absent (`None`) does not match. -/
def ciContainsOpt (hay : Option String) (q : String) : Bool :=
  match hay with
  | none => false
  | some h => ciContains h q

/-- Modelled from the spec: Mongo's evaluation of the `filter_dict` built by
`list_listings` (query execution is in the store engine, outside src/):
"exact match on `gear_type` if provided; case-insensitive substring match on
any of `title`, `brand`, `model` if a query string `q` is provided (logical
OR of the three).  Both filter dimensions combine with logical AND" (§4.4). -/
def matchesListingFilter (f : ListingFilter) (doc : Listing) : Bool :=
  (match f.gear_type with
   | none => true
   | some g => doc.gear_type == g) &&
  (match f.q with
   | none => true
   | some q => ciContains doc.title q || ciContainsOpt doc.brand q ||
       ciContainsOpt doc.model q)

/-- `GET /api/listings` (`list_listings` in `main.py`): build `filter_dict`
from the query parameters, fetch the matching listing documents, serialize
`_id`. -/
def list_listings (d : DB) (gear_type q : Option String) :
    List (String × Listing) :=
  let f := build_listing_filter gear_type q
  (get_documents_filtered d.listing (fun s => matchesListingFilter f s.doc)).map
    (fun s => (s.oid.hex, s.doc))

/-- `POST /api/messages` (`send_message` in `main.py`): store guard, then
existence checks for sender, receiver and listing in that order, then
insertion. -/
def send_message (db : Option DB) (payload : Message) :
    Except HTTPException String × Option DB :=
  match db with
  | none => (Except.error databaseNotConfigured, none)
  | some d =>
    match to_object_id payload.sender_id with
    | Except.error e => (Except.error e, some d)
    | Except.ok sOid =>
      match find_one d.user sOid with
      | none => (Except.error ⟨404, "Sender not found"⟩, some d)
      | some _ =>
        match to_object_id payload.receiver_id with
        | Except.error e => (Except.error e, some d)
        | Except.ok rOid =>
          match find_one d.user rOid with
          | none => (Except.error ⟨404, "Receiver not found"⟩, some d)
          | some _ =>
            match to_object_id payload.listing_id with
            | Except.error e => (Except.error e, some d)
            | Except.ok lOid =>
              match find_one d.listing lOid with
              | none => (Except.error ⟨404, "Listing not found"⟩, some d)
              | some _ =>
                let r := create_document d.message d.counter payload
                (Except.ok r.1, some { d with message := r.2.1, counter := r.2.2 })

/-- `POST /api/reviews` (`create_review` in `main.py`): store guard, then
existence checks for reviewer and reviewee (both against the `user`
collection, in that order), then insertion.  `listing_id` is never looked
at. -/
def create_review (db : Option DB) (payload : Review) :
    Except HTTPException String × Option DB :=
  match db with
  | none => (Except.error databaseNotConfigured, none)
  | some d =>
    match to_object_id payload.reviewer_id with
    | Except.error e => (Except.error e, some d)
    | Except.ok rOid =>
      match find_one d.user rOid with
      | none => (Except.error ⟨404, "Reviewer not found"⟩, some d)
      | some _ =>
        match to_object_id payload.reviewee_id with
        | Except.error e => (Except.error e, some d)
        | Except.ok eOid =>
          match find_one d.user eOid with
          | none => (Except.error ⟨404, "Reviewee not found"⟩, some d)
          | some _ =>
            let r := create_document d.review d.counter payload
            (Except.ok r.1, some { d with review := r.2.1, counter := r.2.2 })

/-- The full `POST /api/reviews` pipeline including FastAPI's pydantic
validation step, which rejects the raw payload with a 422 before the route
handler (and hence any store access) runs. -/
def reviews_endpoint (db : Option DB) (payload : Review) :
    Except HTTPException String × Option DB :=
  if validReview payload then create_review db payload
  else (Except.error ⟨422, "Unprocessable Entity"⟩, db)

/-- Existence of a user document under the (parsed) id string, as tested by
`db["user"].find_one({"_id": to_object_id(s)})`. -/
def userExists (d : DB) (s : String) : Bool :=
  match to_object_id s with
  | Except.error _ => false
  | Except.ok oid => (find_one d.user oid).isSome

/-- Existence of a listing document under the (parsed) id string. -/
def listingExists (d : DB) (s : String) : Bool :=
  match to_object_id s with
  | Except.error _ => false
  | Except.ok oid => (find_one d.listing oid).isSome

/-- Whether a handler outcome is a success (an `IdResponse`) rather than a
raised `HTTPException`. -/
def isSuccess {α : Type} (r : Except HTTPException α) : Bool :=
  match r with
  | Except.ok _ => true
  | Except.error _ => false

/-! ## Concrete fixtures (used to instantiate the theorems) -/

/-- A valid 24-hex id. -/
def oidA : ObjectId := ⟨"aaaaaaaaaaaaaaaaaaaaaaaa"⟩

/-- A second valid 24-hex id. -/
def oidB : ObjectId := ⟨"bbbbbbbbbbbbbbbbbbbbbbbb"⟩

/-- A third valid 24-hex id. -/
def oidC : ObjectId := ⟨"cccccccccccccccccccccccc"⟩

/-- A fourth valid 24-hex id, used as a dangling reference. -/
def oidD : ObjectId := ⟨"dddddddddddddddddddddddd"⟩

/-- A valid `User` payload (the §8 scenario's `{handle:"abc", email:"a@b.com"}`). -/
def uW : User := ⟨"abc", none, "a@b.com", none, none, some [], false, none⟩

/-- A valid `Listing` payload (the §8 scenario's used kite). -/
def lW : Listing := ⟨oidA.hex, "Used Kite", none, "kite", some "Ozone", some "Edge V11",
  none, "good", 200, "USD", none, none, none, none, none, true, true, [], []⟩

/-- A store holding one user (`oidA`) and one listing (`oidC`). -/
def dbW : DB := ⟨[⟨oidA, uW⟩], [⟨oidC, lW⟩], [], [], 7⟩

/-- A store holding two users (`oidA`, `oidB`) and one listing (`oidC`). -/
def dbW2 : DB := ⟨[⟨oidA, uW⟩, ⟨oidB, uW⟩], [⟨oidC, lW⟩], [], [], 7⟩

/-- A message whose sender exists in `dbW` but whose receiver does not. -/
def msgW : Message := ⟨oidC.hex, oidA.hex, oidB.hex, "hi", []⟩

/-- A review between the two users of `dbW2` with a dangling `listing_id`. -/
def revW : Review := ⟨oidA.hex, oidB.hex, 5, none, some oidD.hex⟩

@[simp] theorem isSuccess_ok {α : Type} (a : α) : isSuccess (Except.ok a) = true := rfl

@[simp] theorem isSuccess_error {α : Type} (e : HTTPException) :
    isSuccess (Except.error e : Except HTTPException α) = false := rfl

/-! ## General lemmas -/

theorem to_object_id_of_valid (s : String) (h : isValidObjectIdString s = true) :
    to_object_id s = Except.ok ⟨s⟩ := by
  simp [to_object_id, h]

theorem find_one_append_fresh {α : Type} (coll : List (StoredDoc α)) (oid : ObjectId)
    (p : α) (h : ∀ s ∈ coll, s.oid ≠ oid) :
    find_one (coll ++ [⟨oid, p⟩]) oid = some p := by
  induction coll with
  | nil => simp [find_one]
  | cons s t ih =>
    have hs : s.oid ≠ oid := h s (by simp)
    simp only [List.cons_append, find_one, if_neg hs]
    exact ih fun x hx => h x (by simp [hx])

/-! ## Claims -/

/-- C1: For every Message payload (with well-formed id strings, so that the
identifier resolver does not reject them first — malformed ids are claim
C4's territory), creation succeeds iff the sender user, the receiver user
and the listing all exist in the store; when at least one is missing, the
raised error names the first missing entity in the priority order sender,
receiver, listing, and the store state is unchanged on failure. -/
theorem send_message_reference_checks (d : DB) (p : Message)
    (hs : isValidObjectIdString p.sender_id = true)
    (hr : isValidObjectIdString p.receiver_id = true)
    (hl : isValidObjectIdString p.listing_id = true) :
    (isSuccess (send_message (some d) p).1 =
      (userExists d p.sender_id && userExists d p.receiver_id &&
        listingExists d p.listing_id))
    ∧ (userExists d p.sender_id = false →
        send_message (some d) p = (Except.error ⟨404, "Sender not found"⟩, some d))
    ∧ (userExists d p.sender_id = true → userExists d p.receiver_id = false →
        send_message (some d) p = (Except.error ⟨404, "Receiver not found"⟩, some d))
    ∧ (userExists d p.sender_id = true → userExists d p.receiver_id = true →
        listingExists d p.listing_id = false →
        send_message (some d) p = (Except.error ⟨404, "Listing not found"⟩, some d))
    ∧ (isSuccess (send_message (some d) p).1 = false →
        (send_message (some d) p).2 = some d) := by
  have es := to_object_id_of_valid p.sender_id hs
  have er := to_object_id_of_valid p.receiver_id hr
  have el := to_object_id_of_valid p.listing_id hl
  cases h1 : find_one d.user ⟨p.sender_id⟩ <;>
    cases h2 : find_one d.user ⟨p.receiver_id⟩ <;>
      cases h3 : find_one d.listing ⟨p.listing_id⟩ <;>
        simp [send_message, userExists, listingExists, es, er, el, h1, h2, h3,
          create_document, isSuccess]

/-- C1 witness: in the store `dbW` (user `oidA`, listing `oidC`), the message
`msgW` has an existing sender but a missing receiver, and the theorem applies. -/
theorem send_message_reference_checks_witness :
    (isValidObjectIdString msgW.sender_id = true ∧
      isValidObjectIdString msgW.receiver_id = true ∧
      isValidObjectIdString msgW.listing_id = true) ∧
    ((isSuccess (send_message (some dbW) msgW).1 =
      (userExists dbW msgW.sender_id && userExists dbW msgW.receiver_id &&
        listingExists dbW msgW.listing_id))
    ∧ (userExists dbW msgW.sender_id = false →
        send_message (some dbW) msgW = (Except.error ⟨404, "Sender not found"⟩, some dbW))
    ∧ (userExists dbW msgW.sender_id = true → userExists dbW msgW.receiver_id = false →
        send_message (some dbW) msgW = (Except.error ⟨404, "Receiver not found"⟩, some dbW))
    ∧ (userExists dbW msgW.sender_id = true → userExists dbW msgW.receiver_id = true →
        listingExists dbW msgW.listing_id = false →
        send_message (some dbW) msgW = (Except.error ⟨404, "Listing not found"⟩, some dbW))
    ∧ (isSuccess (send_message (some dbW) msgW).1 = false →
        (send_message (some dbW) msgW).2 = some dbW)) :=
  ⟨⟨by decide, by decide, by decide⟩,
    send_message_reference_checks dbW msgW (by decide) (by decide) (by decide)⟩

/-- C2: For every Listing payload whose (well-formed) `seller_id` names no
existing User document, `create_listing` raises 404 "Seller not found" and
leaves the store unchanged — no listing document is inserted.  (A malformed
`seller_id` is rejected by the identifier resolver instead; that is claim
C4.) -/
theorem create_listing_seller_check (d : DB) (p : Listing)
    (hv : isValidObjectIdString p.seller_id = true)
    (hm : userExists d p.seller_id = false) :
    create_listing (some d) p = (Except.error ⟨404, "Seller not found"⟩, some d) := by
  have es := to_object_id_of_valid p.seller_id hv
  have hf : find_one d.user ⟨p.seller_id⟩ = none := by
    cases h1 : find_one d.user ⟨p.seller_id⟩ with
    | none => rfl
    | some u => simp [userExists, es, h1] at hm
  simp [create_listing, es, hf]

/-- C2 witness: in the store `dbW` the user `oidB` does not exist, so
creating `lW` with seller `oidB` fails with 404 and leaves `dbW` unchanged. -/
theorem create_listing_seller_check_witness :
    (isValidObjectIdString (Listing.seller_id { lW with seller_id := oidB.hex }) = true ∧
      userExists dbW (Listing.seller_id { lW with seller_id := oidB.hex }) = false) ∧
    create_listing (some dbW) { lW with seller_id := oidB.hex } =
      (Except.error ⟨404, "Seller not found"⟩, some dbW) :=
  ⟨⟨by decide, by decide⟩,
    create_listing_seller_check dbW { lW with seller_id := oidB.hex }
      (by decide) (by decide)⟩

/-- C4: Every string that is not a valid 24-hex ObjectId is rejected by the
identifier resolver with the handled client error HTTP 400 "Invalid id";
in particular `create_listing` run on such a `seller_id` raises that
`HTTPException` (a handled error, never an unhandled crash) and leaves the
store unchanged. -/
theorem to_object_id_invalid (s : String) (h : isValidObjectIdString s = false) :
    to_object_id s = Except.error ⟨400, "Invalid id"⟩ ∧
    ∀ (d : DB) (p : Listing), p.seller_id = s →
      create_listing (some d) p = (Except.error ⟨400, "Invalid id"⟩, some d) := by
  constructor
  · simp [to_object_id, h]
  · intro d p hp
    simp [create_listing, to_object_id, hp, h]

/-- C4 witness: the §8 scenario's `"not-an-id"` is rejected with HTTP 400,
and `create_listing` surfaces exactly that error on the concrete store
`dbW`. -/
theorem to_object_id_invalid_witness :
    isValidObjectIdString "not-an-id" = false ∧
    (to_object_id "not-an-id" = Except.error ⟨400, "Invalid id"⟩ ∧
      ∀ (d : DB) (p : Listing), p.seller_id = "not-an-id" →
        create_listing (some d) p = (Except.error ⟨400, "Invalid id"⟩, some d)) ∧
    create_listing (some dbW) { lW with seller_id := "not-an-id" } =
      (Except.error ⟨400, "Invalid id"⟩, some dbW) :=
  ⟨by decide, to_object_id_invalid "not-an-id" (by decide),
    (to_object_id_invalid "not-an-id" (by decide)).2 dbW
      { lW with seller_id := "not-an-id" } rfl⟩

/-- C5: With the store unconfigured (`db is None`), each of the three
reference-checking create endpoints fails with the 500 "Database not
configured" guard uniformly in the payload — in particular before any
reference-existence check can influence the outcome (even payloads with
malformed or dangling reference ids produce exactly this error). -/
theorem store_guard_before_reference_checks :
    (∀ p : Listing, create_listing none p = (Except.error databaseNotConfigured, none)) ∧
    (∀ p : Message, send_message none p = (Except.error databaseNotConfigured, none)) ∧
    (∀ p : Review, create_review none p = (Except.error databaseNotConfigured, none)) ∧
    databaseNotConfigured = ⟨500, "Database not configured"⟩ :=
  ⟨fun _ => rfl, fun _ => rfl, fun _ => rfl, rfl⟩

/-- C6: A Review payload whose rating lies outside `[1, 5]` is rejected by
the validation layer with a 422 before the route handler runs: the outcome
is the same for every store state (including an unconfigured store) and the
store is left untouched — no existence lookup and no insertion happens. -/
theorem review_rating_validation (p : Review) (h : p.rating < 1 ∨ 5 < p.rating) :
    ∀ db : Option DB,
      reviews_endpoint db p = (Except.error ⟨422, "Unprocessable Entity"⟩, db) := by
  intro db
  have hv : validReview p = false := by
    rcases h with h | h <;>
      simp only [validReview, Bool.and_eq_false_iff, decide_eq_false_iff_not, not_le] <;>
      omega
  simp [reviews_endpoint, hv]

/-- C6 witness: rating 6 is rejected with 422 on the concrete configured
store `dbW` (and the state is returned untouched). -/
theorem review_rating_validation_witness :
    ((Review.rating ⟨oidA.hex, oidB.hex, 6, none, none⟩ < 1 ∨
        5 < Review.rating ⟨oidA.hex, oidB.hex, 6, none, none⟩) : Prop) ∧
    reviews_endpoint (some dbW) ⟨oidA.hex, oidB.hex, 6, none, none⟩ =
      (Except.error ⟨422, "Unprocessable Entity"⟩, some dbW) :=
  ⟨by decide,
    review_rating_validation ⟨oidA.hex, oidB.hex, 6, none, none⟩
      (by decide) (some dbW)⟩

/-- C8: `create_review` validates existence only of `reviewer_id` then
`reviewee_id` (in that order, naming the first missing one); it succeeds iff
both users exist, regardless of `listing_id`, and its HTTP outcome is
invariant under changing `listing_id` — so a review with a dangling
`listing_id` is accepted. -/
theorem create_review_checks (d : DB) (p : Review)
    (h1 : isValidObjectIdString p.reviewer_id = true)
    (h2 : isValidObjectIdString p.reviewee_id = true) :
    (isSuccess (create_review (some d) p).1 =
      (userExists d p.reviewer_id && userExists d p.reviewee_id))
    ∧ (userExists d p.reviewer_id = false →
        create_review (some d) p = (Except.error ⟨404, "Reviewer not found"⟩, some d))
    ∧ (userExists d p.reviewer_id = true → userExists d p.reviewee_id = false →
        create_review (some d) p = (Except.error ⟨404, "Reviewee not found"⟩, some d))
    ∧ (∀ lid lid' : Option String,
        (create_review (some d) { p with listing_id := lid }).1 =
        (create_review (some d) { p with listing_id := lid' }).1) := by
  have er := to_object_id_of_valid p.reviewer_id h1
  have ee := to_object_id_of_valid p.reviewee_id h2
  cases hf1 : find_one d.user ⟨p.reviewer_id⟩ <;>
    cases hf2 : find_one d.user ⟨p.reviewee_id⟩ <;>
      simp [create_review, userExists, er, ee, hf1, hf2, create_document, isSuccess]

/-- C8 witness: in `dbW2` both users of `revW` exist while its `listing_id`
(`oidD`) names no listing, and the theorem applies; in particular the review
is accepted despite the dangling `listing_id`. -/
theorem create_review_checks_witness :
    (isValidObjectIdString revW.reviewer_id = true ∧
      isValidObjectIdString revW.reviewee_id = true ∧
      listingExists dbW2 oidD.hex = false) ∧
    ((isSuccess (create_review (some dbW2) revW).1 =
      (userExists dbW2 revW.reviewer_id && userExists dbW2 revW.reviewee_id))
    ∧ (userExists dbW2 revW.reviewer_id = false →
        create_review (some dbW2) revW = (Except.error ⟨404, "Reviewer not found"⟩, some dbW2))
    ∧ (userExists dbW2 revW.reviewer_id = true → userExists dbW2 revW.reviewee_id = false →
        create_review (some dbW2) revW = (Except.error ⟨404, "Reviewee not found"⟩, some dbW2))
    ∧ (∀ lid lid' : Option String,
        (create_review (some dbW2) { revW with listing_id := lid }).1 =
        (create_review (some dbW2) { revW with listing_id := lid' }).1)) :=
  ⟨⟨by decide, by decide, by decide⟩,
    create_review_checks dbW2 revW (by decide) (by decide)⟩

/-- C3: With both query parameters provided (non-empty), the listing search
returns exactly the listings whose `gear_type` equals the given value AND
whose `title`, `brand` or `model` contains `q` as a case-insensitive
substring (logical OR over the three fields), in store order, with ids
serialized. -/
theorem list_listings_combined_filter (d : DB) (g q : String)
    (hg : g ≠ "") (hq : q ≠ "") :
    list_listings d (some g) (some q) =
      (d.listing.filter (fun s =>
        (s.doc.gear_type == g) &&
          (ciContains s.doc.title q || ciContainsOpt s.doc.brand q ||
            ciContainsOpt s.doc.model q))).map (fun s => (s.oid.hex, s.doc)) := by
  have hg' : (g == "") = false := by simpa using hg
  have hq' : (q == "") = false := by simpa using hq
  simp [list_listings, build_listing_filter, truthy, hg', hq',
    get_documents_filtered, matchesListingFilter]

/-- C3 witness: the spec's own example, `gear_type="kite"`, `q="ozone"`, on
the concrete store `dbW` (whose single listing matches on the brand
"Ozone"). -/
theorem list_listings_combined_filter_witness :
    ("kite" ≠ "" ∧ ("ozone" : String) ≠ "") ∧
    list_listings dbW (some "kite") (some "ozone") =
      (dbW.listing.filter (fun s =>
        (s.doc.gear_type == "kite") &&
          (ciContains s.doc.title "ozone" || ciContainsOpt s.doc.brand "ozone" ||
            ciContainsOpt s.doc.model "ozone"))).map (fun s => (s.oid.hex, s.doc)) :=
  ⟨⟨by decide, by decide⟩,
    list_listings_combined_filter dbW "kite" "ozone" (by decide) (by decide)⟩

/-- C7: Round-trip through the gateway: `create_document` returns the
generated id, and listing the collection back yields the previous documents
plus a document carrying exactly the input fields (unaltered) together with
the generated identifier; the returned id resolves to the input payload by a
subsequent lookup (given the store's guarantee that the generated id is
fresh).  Instantiated at the user endpoint: after `create_user`,
`list_users` returns the old list plus the created payload paired with its
serialized id. -/
theorem create_then_list_round_trip {α : Type} (coll : List (StoredDoc α))
    (c : Nat) (p : α) :
    (create_document coll c p).1 = (genId c).hex
    ∧ get_documents (create_document coll c p).2.1 =
        get_documents coll ++ [⟨genId c, p⟩]
    ∧ ((∀ s ∈ coll, s.oid ≠ genId c) →
        find_one (create_document coll c p).2.1 (genId c) = some p)
    ∧ ∀ (d : DB) (u : User), ∃ d' : DB,
        create_user (some d) u = (Except.ok (genId d.counter).hex, some d') ∧
        list_users d' = list_users d ++ [((genId d.counter).hex, u)] := by
  refine ⟨rfl, rfl, ?_, ?_⟩
  · intro h
    exact find_one_append_fresh coll (genId c) p h
  · intro d u
    refine ⟨_, rfl, ?_⟩
    simp [list_users, get_documents, create_document]

/-- C7 witness: creating `uW` in the concrete store `dbW` (whose generated
id is fresh) and listing the `user` collection back returns the old users
plus `uW` unaltered, under its generated id; the id also resolves by
`find_one`. -/
theorem create_then_list_round_trip_witness :
    (∀ s ∈ dbW.user, s.oid ≠ genId dbW.counter) ∧
    ((create_document dbW.user dbW.counter uW).1 = (genId dbW.counter).hex
    ∧ get_documents (create_document dbW.user dbW.counter uW).2.1 =
        get_documents dbW.user ++ [⟨genId dbW.counter, uW⟩]
    ∧ ((∀ s ∈ dbW.user, s.oid ≠ genId dbW.counter) →
        find_one (create_document dbW.user dbW.counter uW).2.1 (genId dbW.counter) =
          some uW)
    ∧ ∀ (d : DB) (u : User), ∃ d' : DB,
        create_user (some d) u = (Except.ok (genId d.counter).hex, some d') ∧
        list_users d' = list_users d ++ [((genId d.counter).hex, u)]) :=
  ⟨by decide, create_then_list_round_trip dbW.user dbW.counter uW⟩

/-- C9: Unlike the other three create endpoints, `create_user` has no store
guard: with the store unconfigured it hands the payload to the gateway and
never raises the 500 "Database not configured" guard error (contrast
`create_listing`, which does). -/
theorem create_user_no_store_guard :
    (∀ p : User, create_user none p = (Except.error driverFailure, none))
    ∧ driverFailure ≠ databaseNotConfigured
    ∧ (∀ p : User, (create_user none p).1 ≠ Except.error databaseNotConfigured)
    ∧ (∀ p : Listing, create_listing none p = (Except.error databaseNotConfigured, none)) :=
  ⟨fun _ => rfl, by decide, fun _ h => by simp [create_user] at h; exact absurd h (by decide),
    fun _ => rfl⟩

/-- C10: An empty-string query parameter adds no filter clause: searching
with `gear_type=""` returns exactly what omitting `gear_type` returns, and
likewise for `q=""`, for every store state and every value of the other
parameter. -/
theorem list_listings_empty_params_absent (d : DB) :
    (∀ q0 : Option String, list_listings d (some "") q0 = list_listings d none q0)
    ∧ (∀ g0 : Option String, list_listings d g0 (some "") = list_listings d g0 none) := by
  constructor <;> intro x <;> rfl
